import Mathlib

/-!
Verification of the optimistic-concurrency inventory manager
(`app_haminku.py`) against its specification.

The program keeps an authoritative table in an external sheet and a
per-session in-memory mirror (`st.session_state.inventory_df`).  Every
existing-record mutation re-reads the sheet (uncached), compares the first
matching row's version with the caller's `expected_version`, and on a match
runs an update closure that mutates the session mirror and then writes the
whole mirror back to the sheet.  We embed the rows, the two-collection
state, the load/normalisation step and the four mutation operations as
executable Lean functions and prove or refute the specified properties.
-/

namespace Haminku

/-- One inventory row as the mutation functions see it: the columns
`Image, Name, Quantity, Notes, Date, Version` of the sheet. -/
structure Record where
  image    : Option String
  name     : String
  quantity : Int
  notes    : Option String
  date     : String
  version  : Int
deriving Repr, DecidableEq

/-- The mutable state of one session: the authoritative sheet contents
(`store`, what `conn.read`/`conn.update` sees) and the session mirror
(`mirror`, the DataFrame held in `st.session_state.inventory_df`). -/
structure AppState where
  store  : List Record
  mirror : List Record
deriving Repr, DecidableEq

/-- Outcome of a mutation, matching the user-visible branches of the code:
success, the "Item not found" error, the "changed by another user" error
(version conflict), and the generic exception branch that fires when the
backing write raises. -/
inductive MutationResult where
  | success
  | recordNotFound
  | versionConflict
  | storeError
deriving Repr, DecidableEq

/-- `_get_item_from_gsheets`: read the sheet uncached and keep the rows
whose `Name` equals `item_name`.  The read hits the authoritative store,
never the session mirror. -/
def get_item_from_gsheets (store : List Record) (item_name : String) :
    List Record :=
  store.filter (fun r => r.name == item_name)

/-- `_perform_optimistic_update`: locate the item in the authoritative
store; if absent report not-found, if its (first matching row's) version
differs from `expected_version` report a conflict; otherwise run the update
closure on the session mirror with `current_version + 1` and write the
mutated mirror back to the sheet.  `writeOk` models whether
`conn.update` succeeds; when it raises, the closure has already mutated
the mirror (all three closures mutate the DataFrame before calling
`conn.update`), so the mirror keeps the mutation while the store does not. -/
def perform_optimistic_update (s : AppState) (item_name : String)
    (expected_version : Int) (update_function : Int → List Record → List Record)
    (writeOk : Bool) : MutationResult × AppState :=
  let current_item := get_item_from_gsheets s.store item_name
  match current_item.head? with
  | none => (.recordNotFound, s)
  | some row =>
    if row.version != expected_version then
      (.versionConflict, s)
    else
      let newMirror := update_function (row.version + 1) s.mirror
      if writeOk then
        (.success, { store := newMirror, mirror := newMirror })
      else
        (.storeError, { s with mirror := newMirror })

/-- The closure inside `update_gsheet_quantity_and_date`: set `Quantity`,
`Date` and `Version` on every mirror row whose `Name` matches. -/
def quantity_update_logic (item_name : String) (new_quantity : Int)
    (today : String) (new_version : Int) (mirror : List Record) :
    List Record :=
  mirror.map (fun r =>
    if r.name == item_name then
      { r with quantity := new_quantity, date := today, version := new_version }
    else r)

/-- `update_gsheet_quantity_and_date(item_name, new_quantity,
expected_version)`; `today` stands for the `m/d/yyyy` string built from
`datetime.now()`. -/
def update_gsheet_quantity_and_date (s : AppState) (item_name : String)
    (new_quantity : Int) (expected_version : Int) (today : String)
    (writeOk : Bool) : MutationResult × AppState :=
  perform_optimistic_update s item_name expected_version
    (quantity_update_logic item_name new_quantity today) writeOk

/-- The closure inside `update_notes_in_gsheet`: set `Notes` and `Version`
on every mirror row whose `Name` matches. -/
def notes_update_logic (item_name : String) (new_notes : String)
    (new_version : Int) (mirror : List Record) : List Record :=
  mirror.map (fun r =>
    if r.name == item_name then
      { r with notes := some new_notes, version := new_version }
    else r)

/-- `update_notes_in_gsheet(item_name, new_notes, expected_version)`. -/
def update_notes_in_gsheet (s : AppState) (item_name : String)
    (new_notes : String) (expected_version : Int) (writeOk : Bool) :
    MutationResult × AppState :=
  perform_optimistic_update s item_name expected_version
    (notes_update_logic item_name new_notes) writeOk

/-- The closure inside `delete_item_from_gsheet`: drop every mirror row
whose `Name` matches.  The `new_version` argument is received but unused,
exactly as `delete_logic(new_version)` ignores it. -/
def delete_logic (item_name : String) (_new_version : Int)
    (mirror : List Record) : List Record :=
  mirror.filter (fun r => !(r.name == item_name))

/-- `delete_item_from_gsheet(item_name, expected_version)`. -/
def delete_item_from_gsheet (s : AppState) (item_name : String)
    (expected_version : Int) (writeOk : Bool) : MutationResult × AppState :=
  perform_optimistic_update s item_name expected_version
    (delete_logic item_name) writeOk

/-- `add_new_item_to_gsheet(image, name, quantity, notes)`: build a fresh
row with `Version = 1` and today's date, append it to the session mirror,
and write the whole mirror back.  There is no version check.  On a failed
write the concatenation has already been assigned to the session state, so
the mirror keeps the new row while the store does not. -/
def add_new_item_to_gsheet (s : AppState) (image : Option String)
    (name : String) (quantity : Int) (notes : Option String)
    (today : String) (writeOk : Bool) : MutationResult × AppState :=
  let new_row : Record :=
    { image := image, name := name, quantity := quantity, notes := notes,
      date := today, version := 1 }
  let newMirror := s.mirror ++ [new_row]
  if writeOk then
    (.success, { store := newMirror, mirror := newMirror })
  else
    (.storeError, { s with mirror := newMirror })

/-! ### Collection load and version normalisation (`get_data_from_gsheets`) -/

/-- A raw spreadsheet cell as pandas delivers it: `blank` is an empty cell
(`NaN`), `num n` a value `int(...)` parses (numeric, or a numeric string),
`text s` a non-numeric string on which `astype(int)` raises. -/
inductive Cell where
  | blank
  | num (n : Int)
  | text (s : String)
deriving Repr, DecidableEq

/-- A raw sheet row before normalisation, one `Cell` per column. -/
structure RawRow where
  imageCell    : Cell
  nameCell     : Cell
  quantityCell : Cell
  notesCell    : Cell
  dateCell     : Cell
  versionCell  : Cell
deriving Repr, DecidableEq

/-- The raw sheet: whether a `Version` column exists at all, and the rows. -/
structure RawTable where
  hasVersionColumn : Bool
  rows : List RawRow
deriving Repr, DecidableEq

/-- A loaded row: the raw cells plus the normalised integer version. -/
structure LoadedRow where
  imageCell    : Cell
  nameCell     : Cell
  quantityCell : Cell
  notesCell    : Cell
  dateCell     : Cell
  version      : Int
deriving Repr, DecidableEq

/-- `fillna(1)` on a version cell: a blank (`NaN`) becomes `1`. -/
def fillna_one : Cell → Cell
  | .blank => .num 1
  | c => c

/-- `astype(int)` on one cell: numeric values convert, a non-numeric string
raises (`none`); after `fillna(1)` no blank remains. -/
def astype_int : Cell → Option Int
  | .blank => none
  | .num n => some n
  | .text _ => none

/-- The `dropna(subset=['Image','Name','Quantity'], how='all')` row test:
a row is kept unless all three of those cells are blank. -/
def keep_row (r : RawRow) : Bool :=
  !(r.imageCell == .blank && r.nameCell == .blank && r.quantityCell == .blank)

/-- Attach a normalised version to a raw row. -/
def with_version (r : RawRow) (v : Int) : LoadedRow :=
  { imageCell := r.imageCell, nameCell := r.nameCell,
    quantityCell := r.quantityCell, notesCell := r.notesCell,
    dateCell := r.dateCell, version := v }

/-- Column-wise `fillna(1).astype(int)` over the `Version` column: convert
every cell, failing the whole conversion (the raised `ValueError`) as soon
as one cell is non-numeric. -/
def astype_version_column : List RawRow → Option (List LoadedRow)
  | [] => some []
  | r :: rest =>
    match astype_int (fillna_one r.versionCell), astype_version_column rest with
    | some v, some rows => some (with_version r v :: rows)
    | _, _ => none

/-- `get_data_from_gsheets`: drop all-blank rows; if the `Version` column
is missing, set every version to 1; otherwise `fillna(1).astype(int)` the
column, and if any cell is non-numeric the `astype` raises, the `except`
branch reports the error and the function returns `None`. -/
def get_data_from_gsheets (t : RawTable) : Option (List LoadedRow) :=
  let kept := t.rows.filter keep_row
  if t.hasVersionColumn then
    astype_version_column kept
  else
    some (kept.map (fun r => with_version r 1))

/-! ### Display-side quantity handling (`display_inventory_items`) -/

/-- `int(quantity)` guarded by `except (ValueError, TypeError): quantity = 0`:
a numeric cell converts, a blank (`int(NaN)` raises) or non-numeric string
falls back to 0.  A missing column is a blank cell via `row.get(..., 0)`. -/
def coerce_quantity : Cell → Int
  | .num n => n
  | .blank => 0
  | .text _ => 0

/-- The Decrease button's new quantity: `max(0, quantity - 1)`. -/
def decrease_new_qty (quantity : Int) : Int :=
  max 0 (quantity - 1)

/-- The Increase button's new quantity: `quantity + 1`. -/
def increase_new_qty (quantity : Int) : Int :=
  quantity + 1

/-- True unless the cell is non-numeric text, the one shape whose version
the load refuses to normalise. -/
def version_cell_ok : Cell → Bool
  | .text _ => false
  | _ => true

/-- The version a well-formed cell normalises to: blanks become 1, numeric
values are kept. -/
def normalized_version : Cell → Int
  | .num n => n
  | _ => 1

/-! ### Helper lemmas -/

/-- Filtering by name commutes with a map that preserves names. -/
theorem name_filter_map (item_name : String) (f : Record → Record)
    (hf : ∀ r, (f r).name = r.name) (l : List Record) :
    (l.map f).filter (fun r => r.name == item_name)
      = (l.filter (fun r => r.name == item_name)).map f := by
  induction l with
  | nil => rfl
  | cons a l ih =>
    simp only [List.map_cons, List.filter_cons, hf a]
    by_cases h : (a.name == item_name) = true
    · simp [h, ih]
    · simp [h, ih]

/-- After dropping every row of a name, no row of that name remains. -/
theorem filter_name_after_delete (item_name : String) (l : List Record) :
    (l.filter (fun r => !(r.name == item_name))).filter
        (fun r => r.name == item_name) = [] := by
  induction l with
  | nil => rfl
  | cons a l ih =>
    by_cases h : (a.name == item_name) = true
    · simp [List.filter_cons, h, ih]
    · simp [List.filter_cons, h, ih]

/-- The per-row function of `quantity_update_logic` preserves names. -/
theorem quantity_row_name (item_name : String) (new_quantity : Int)
    (today : String) (new_version : Int) (r : Record) :
    ((fun r => if r.name == item_name then
        { r with quantity := new_quantity, date := today,
                 version := new_version }
      else r) r).name = r.name := by
  by_cases h : (r.name == item_name) = true <;> simp [h]

/-- The per-row function of `notes_update_logic` preserves names. -/
theorem notes_row_name (item_name new_notes : String) (new_version : Int)
    (r : Record) :
    ((fun r => if r.name == item_name then
        { r with notes := some new_notes, version := new_version }
      else r) r).name = r.name := by
  by_cases h : (r.name == item_name) = true <;> simp [h]

/-- Filtering the rows of the updated name out of a quantity update:
every kept row is the rewritten form of a kept row of the input. -/
theorem quantity_update_filter (item_name : String) (new_quantity : Int)
    (today : String) (v : Int) (l : List Record) :
    (quantity_update_logic item_name new_quantity today v l).filter
        (fun r => r.name == item_name)
      = (l.filter (fun r => r.name == item_name)).map
          (fun r => { r with quantity := new_quantity, date := today,
                             version := v }) := by
  have h1 := name_filter_map item_name
      (fun r => if r.name == item_name then
        { r with quantity := new_quantity, date := today, version := v }
      else r)
      (quantity_row_name item_name new_quantity today v) l
  refine h1.trans (List.map_congr_left ?_)
  intro r hr
  exact if_pos (List.of_mem_filter hr)

/-- The notes-update analogue of `quantity_update_filter`. -/
theorem notes_update_filter (item_name new_notes : String) (v : Int)
    (l : List Record) :
    (notes_update_logic item_name new_notes v l).filter
        (fun r => r.name == item_name)
      = (l.filter (fun r => r.name == item_name)).map
          (fun r => { r with notes := some new_notes, version := v }) := by
  have h1 := name_filter_map item_name
      (fun r => if r.name == item_name then
        { r with notes := some new_notes, version := v }
      else r)
      (notes_row_name item_name new_notes v) l
  refine h1.trans (List.map_congr_left ?_)
  intro r hr
  exact if_pos (List.of_mem_filter hr)

/-- On a version match the quantity update succeeds, and the mirror
rewritten by `quantity_update_logic` becomes both the new store and the new
mirror. -/
theorem quantity_update_success (s : AppState) (item_name : String)
    (new_quantity expected_version : Int) (today : String) (row : Record)
    (hrow : (get_item_from_gsheets s.store item_name).head? = some row)
    (hv : row.version = expected_version) :
    update_gsheet_quantity_and_date s item_name new_quantity
        expected_version today true
      = (.success,
         ⟨quantity_update_logic item_name new_quantity today
            (expected_version + 1) s.mirror,
          quantity_update_logic item_name new_quantity today
            (expected_version + 1) s.mirror⟩) := by
  simp [update_gsheet_quantity_and_date, perform_optimistic_update,
    hrow, hv]

/-- The notes-update analogue of `quantity_update_success`. -/
theorem notes_update_success (s : AppState) (item_name : String)
    (new_notes : String) (expected_version : Int) (row : Record)
    (hrow : (get_item_from_gsheets s.store item_name).head? = some row)
    (hv : row.version = expected_version) :
    update_notes_in_gsheet s item_name new_notes expected_version true
      = (.success,
         ⟨notes_update_logic item_name new_notes (expected_version + 1)
            s.mirror,
          notes_update_logic item_name new_notes (expected_version + 1)
            s.mirror⟩) := by
  simp [update_notes_in_gsheet, perform_optimistic_update, hrow, hv]

/-- On a version match the delete succeeds, and the mirror with every row
of the name dropped becomes both the new store and the new mirror. -/
theorem delete_success (s : AppState) (item_name : String)
    (expected_version : Int) (row : Record)
    (hrow : (get_item_from_gsheets s.store item_name).head? = some row)
    (hv : row.version = expected_version) :
    delete_item_from_gsheet s item_name expected_version true
      = (.success,
         ⟨s.mirror.filter (fun r => !(r.name == item_name)),
          s.mirror.filter (fun r => !(r.name == item_name))⟩) := by
  simp [delete_item_from_gsheet, perform_optimistic_update, delete_logic,
    hrow, hv]

/-- Every row of the updated name in the output of `quantity_update_logic`
carries the new quantity and the new version. -/
theorem quantity_logic_mem (item_name : String) (new_quantity : Int)
    (today : String) (v : Int) (l : List Record) :
    ∀ r ∈ quantity_update_logic item_name new_quantity today v l,
      r.name = item_name → r.quantity = new_quantity ∧ r.version = v := by
  intro r hr hname
  simp only [quantity_update_logic, List.mem_map] at hr
  obtain ⟨a, _, rfl⟩ := hr
  by_cases h : (a.name == item_name) = true
  · simp [h]
  · rw [if_neg h] at hname
    exact absurd (beq_iff_eq.mpr hname) h

/-- Every row of the updated name in the output of `notes_update_logic`
carries the new notes and the new version. -/
theorem notes_logic_mem (item_name new_notes : String) (v : Int)
    (l : List Record) :
    ∀ r ∈ notes_update_logic item_name new_notes v l,
      r.name = item_name → r.notes = some new_notes ∧ r.version = v := by
  intro r hr hname
  simp only [notes_update_logic, List.mem_map] at hr
  obtain ⟨a, _, rfl⟩ := hr
  by_cases h : (a.name == item_name) = true
  · simp [h]
  · rw [if_neg h] at hname
    exact absurd (beq_iff_eq.mpr hname) h

/-- A `head? = some` hypothesis on a filtered list yields the tail shape
and the filter predicate on the head. -/
theorem filter_head_shape (p : Record → Bool) (l : List Record)
    (row : Record) (h : (l.filter p).head? = some row) :
    (∃ t, l.filter p = row :: t) ∧ p row = true := by
  cases hl : l.filter p with
  | nil => rw [hl] at h; simp at h
  | cons a t =>
    rw [hl] at h
    simp only [List.head?_cons, Option.some.injEq] at h
    subst h
    refine ⟨⟨t, rfl⟩, ?_⟩
    exact List.of_mem_filter (hl ▸ List.mem_cons_self a t)

/-! ### Claims -/

/-- C1: for each existing-record mutation (quantity-and-date update, notes
update, delete), when the first authoritative row of the given name carries
a version different from `expected_version`, the operation reports a
version conflict and returns the state untouched: no write happens and both
the store and the mirror are exactly as before. -/
theorem C1_version_conflict_rejects (s : AppState) (item_name : String)
    (new_quantity expected_version : Int) (new_notes today : String)
    (writeOk : Bool) (row : Record)
    (hrow : (get_item_from_gsheets s.store item_name).head? = some row)
    (hv : row.version ≠ expected_version) :
    update_gsheet_quantity_and_date s item_name new_quantity
        expected_version today writeOk = (.versionConflict, s)
    ∧ update_notes_in_gsheet s item_name new_notes expected_version writeOk
        = (.versionConflict, s)
    ∧ delete_item_from_gsheet s item_name expected_version writeOk
        = (.versionConflict, s) := by
  refine ⟨?_, ?_, ?_⟩ <;>
    simp [update_gsheet_quantity_and_date, update_notes_in_gsheet,
      delete_item_from_gsheet, perform_optimistic_update, hrow, hv]

/-- Witness for C1 at a concrete input: record `Rice` stored at version 2,
caller presents stale version 5. -/
theorem C1_version_conflict_rejects_witness :
    ((get_item_from_gsheets
        ([⟨none, "Rice", 5, none, "1/1/2025", 2⟩] : List Record)
        "Rice").head? = some ⟨none, "Rice", 5, none, "1/1/2025", 2⟩)
    ∧ ((2 : Int) ≠ 5)
    ∧ (update_gsheet_quantity_and_date
          ⟨[⟨none, "Rice", 5, none, "1/1/2025", 2⟩],
           [⟨none, "Rice", 5, none, "1/1/2025", 2⟩]⟩ "Rice" 4 5 "2/2/2025"
          true
        = (.versionConflict,
           ⟨[⟨none, "Rice", 5, none, "1/1/2025", 2⟩],
            [⟨none, "Rice", 5, none, "1/1/2025", 2⟩]⟩)
      ∧ update_notes_in_gsheet
          ⟨[⟨none, "Rice", 5, none, "1/1/2025", 2⟩],
           [⟨none, "Rice", 5, none, "1/1/2025", 2⟩]⟩ "Rice" "note" 5 true
        = (.versionConflict,
           ⟨[⟨none, "Rice", 5, none, "1/1/2025", 2⟩],
            [⟨none, "Rice", 5, none, "1/1/2025", 2⟩]⟩)
      ∧ delete_item_from_gsheet
          ⟨[⟨none, "Rice", 5, none, "1/1/2025", 2⟩],
           [⟨none, "Rice", 5, none, "1/1/2025", 2⟩]⟩ "Rice" 5 true
        = (.versionConflict,
           ⟨[⟨none, "Rice", 5, none, "1/1/2025", 2⟩],
            [⟨none, "Rice", 5, none, "1/1/2025", 2⟩]⟩)) :=
  ⟨by decide, by decide,
   C1_version_conflict_rejects
     ⟨[⟨none, "Rice", 5, none, "1/1/2025", 2⟩],
      [⟨none, "Rice", 5, none, "1/1/2025", 2⟩]⟩ "Rice" 4 5 "note" "2/2/2025"
     true ⟨none, "Rice", 5, none, "1/1/2025", 2⟩ (by decide) (by decide)⟩

/-- C6: when the authoritative store holds no row of the given name at
verification time, each of the three existing-record mutations — delete
included — reports record-not-found and leaves the state untouched. -/
theorem C6_record_not_found (s : AppState) (item_name : String)
    (new_quantity expected_version : Int) (new_notes today : String)
    (writeOk : Bool)
    (habs : get_item_from_gsheets s.store item_name = []) :
    update_gsheet_quantity_and_date s item_name new_quantity
        expected_version today writeOk = (.recordNotFound, s)
    ∧ update_notes_in_gsheet s item_name new_notes expected_version writeOk
        = (.recordNotFound, s)
    ∧ delete_item_from_gsheet s item_name expected_version writeOk
        = (.recordNotFound, s) := by
  refine ⟨?_, ?_, ?_⟩ <;>
    simp [update_gsheet_quantity_and_date, update_notes_in_gsheet,
      delete_item_from_gsheet, perform_optimistic_update, habs]

/-- Witness for C6: deleting (or updating) the absent name `Ghost` in a
store that only holds `Rice`. -/
theorem C6_record_not_found_witness :
    (get_item_from_gsheets
        ([⟨none, "Rice", 5, none, "1/1/2025", 2⟩] : List Record) "Ghost"
      = [])
    ∧ (update_gsheet_quantity_and_date
          ⟨[⟨none, "Rice", 5, none, "1/1/2025", 2⟩],
           [⟨none, "Rice", 5, none, "1/1/2025", 2⟩]⟩ "Ghost" 4 1 "2/2/2025"
          true
        = (.recordNotFound,
           ⟨[⟨none, "Rice", 5, none, "1/1/2025", 2⟩],
            [⟨none, "Rice", 5, none, "1/1/2025", 2⟩]⟩)
      ∧ update_notes_in_gsheet
          ⟨[⟨none, "Rice", 5, none, "1/1/2025", 2⟩],
           [⟨none, "Rice", 5, none, "1/1/2025", 2⟩]⟩ "Ghost" "note" 1 true
        = (.recordNotFound,
           ⟨[⟨none, "Rice", 5, none, "1/1/2025", 2⟩],
            [⟨none, "Rice", 5, none, "1/1/2025", 2⟩]⟩)
      ∧ delete_item_from_gsheet
          ⟨[⟨none, "Rice", 5, none, "1/1/2025", 2⟩],
           [⟨none, "Rice", 5, none, "1/1/2025", 2⟩]⟩ "Ghost" 1 true
        = (.recordNotFound,
           ⟨[⟨none, "Rice", 5, none, "1/1/2025", 2⟩],
            [⟨none, "Rice", 5, none, "1/1/2025", 2⟩]⟩)) :=
  ⟨by decide,
   C6_record_not_found
     ⟨[⟨none, "Rice", 5, none, "1/1/2025", 2⟩],
      [⟨none, "Rice", 5, none, "1/1/2025", 2⟩]⟩ "Ghost" 4 1 "note" "2/2/2025"
     true (by decide)⟩

/-- C8: the Decrease button computes `max(0, quantity - 1)`, so a record at
quantity 0 stays at 0 and the decremented quantity is never negative; a
blank (NaN) or non-numeric quantity cell is coerced to 0 by the display
layer, never to a negative value. -/
theorem C8_quantity_never_negative :
    decrease_new_qty 0 = 0
    ∧ (∀ q : Int, 0 ≤ decrease_new_qty q)
    ∧ (∀ q : Int, decrease_new_qty q = max 0 (q - 1))
    ∧ coerce_quantity .blank = 0
    ∧ (∀ str : String, coerce_quantity (.text str) = 0) := by
  exact ⟨rfl, fun q => le_max_left 0 (q - 1), fun q => rfl, rfl, fun _ => rfl⟩

/-- C9: adding a record never performs a version check — it cannot return
a conflict or not-found — and (when the write goes through) appends exactly
one row with version 1 and today's date to the mirrored collection,
regardless of the prior state; if rows of the same name already exist, the
written collection keeps them alongside the new row. -/
theorem C9_add_unconditional (s : AppState) (image : Option String)
    (name : String) (quantity : Int) (notes : Option String)
    (today : String) :
    add_new_item_to_gsheet s image name quantity notes today true
      = (.success,
         { store := s.mirror ++ [⟨image, name, quantity, notes, today, 1⟩],
           mirror := s.mirror ++ [⟨image, name, quantity, notes, today, 1⟩] })
    ∧ (Record.version ⟨image, name, quantity, notes, today, 1⟩ = 1)
    ∧ ((add_new_item_to_gsheet s image name quantity notes today
          true).2.store.filter (fun r => r.name == name)
        = s.mirror.filter (fun r => r.name == name)
            ++ [⟨image, name, quantity, notes, today, 1⟩])
    ∧ (∀ writeOk : Bool,
        (add_new_item_to_gsheet s image name quantity notes today
            writeOk).1 ≠ .versionConflict
        ∧ (add_new_item_to_gsheet s image name quantity notes today
            writeOk).1 ≠ .recordNotFound) := by
  refine ⟨rfl, rfl, ?_, ?_⟩
  · simp [add_new_item_to_gsheet, List.filter_append]
  · intro writeOk
    cases writeOk <;> simp [add_new_item_to_gsheet]

/-- C10: the version check reads only the first authoritative row of the
given name (the hypotheses constrain nothing but that first row), while the
effect of a successful mutation reaches every mirror row of that name:
updates rewrite the fields of all of them, delete drops all of them. -/
theorem C10_first_row_check_all_rows_effect (s : AppState)
    (item_name : String) (new_quantity expected_version : Int)
    (new_notes today : String) (row : Record)
    (hrow : (get_item_from_gsheets s.store item_name).head? = some row)
    (hv : row.version = expected_version) :
    (update_gsheet_quantity_and_date s item_name new_quantity
        expected_version today true
      = (.success,
         ⟨quantity_update_logic item_name new_quantity today
            (expected_version + 1) s.mirror,
          quantity_update_logic item_name new_quantity today
            (expected_version + 1) s.mirror⟩)
      ∧ ∀ r ∈ (update_gsheet_quantity_and_date s item_name new_quantity
            expected_version today true).2.store,
          r.name = item_name →
            r.quantity = new_quantity ∧ r.version = expected_version + 1)
    ∧ (update_notes_in_gsheet s item_name new_notes expected_version true
      = (.success,
         ⟨notes_update_logic item_name new_notes (expected_version + 1)
            s.mirror,
          notes_update_logic item_name new_notes (expected_version + 1)
            s.mirror⟩)
      ∧ ∀ r ∈ (update_notes_in_gsheet s item_name new_notes
            expected_version true).2.store,
          r.name = item_name →
            r.notes = some new_notes ∧ r.version = expected_version + 1)
    ∧ (delete_item_from_gsheet s item_name expected_version true
      = (.success,
         ⟨s.mirror.filter (fun r => !(r.name == item_name)),
          s.mirror.filter (fun r => !(r.name == item_name))⟩)
      ∧ ∀ r ∈ (delete_item_from_gsheet s item_name expected_version
            true).2.store,
          r.name ≠ item_name) := by
  have hq := quantity_update_success s item_name new_quantity
    expected_version today row hrow hv
  have hn := notes_update_success s item_name new_notes expected_version
    row hrow hv
  have hd := delete_success s item_name expected_version row hrow hv
  refine ⟨⟨hq, ?_⟩, ⟨hn, ?_⟩, ⟨hd, ?_⟩⟩
  · intro r hr hname
    rw [hq] at hr
    exact quantity_logic_mem item_name new_quantity today
      (expected_version + 1) s.mirror r hr hname
  · intro r hr hname
    rw [hn] at hr
    exact notes_logic_mem item_name new_notes (expected_version + 1)
      s.mirror r hr hname
  · intro r hr
    rw [hd] at hr
    have := List.of_mem_filter hr
    simpa [beq_iff_eq] using this

/-- Witness for C10: two rows both named `Rice` at versions 2 and 9; the
check passes against version 2 (the first row) alone, and both rows are
rewritten / deleted. -/
theorem C10_first_row_check_all_rows_effect_witness :
    ((get_item_from_gsheets
        ([⟨none, "Rice", 5, none, "d", 2⟩, ⟨none, "Rice", 7, none, "d", 9⟩]
          : List Record) "Rice").head?
      = some ⟨none, "Rice", 5, none, "d", 2⟩)
    ∧ (Record.version ⟨none, "Rice", 5, none, "d", 2⟩ = 2)
    ∧ update_gsheet_quantity_and_date
          ⟨[⟨none, "Rice", 5, none, "d", 2⟩, ⟨none, "Rice", 7, none, "d", 9⟩],
           [⟨none, "Rice", 5, none, "d", 2⟩, ⟨none, "Rice", 7, none, "d", 9⟩]⟩
          "Rice" 4 2 "d2" true
        = (.success,
           ⟨quantity_update_logic "Rice" 4 "d2" (2 + 1)
              [⟨none, "Rice", 5, none, "d", 2⟩,
               ⟨none, "Rice", 7, none, "d", 9⟩],
            quantity_update_logic "Rice" 4 "d2" (2 + 1)
              [⟨none, "Rice", 5, none, "d", 2⟩,
               ⟨none, "Rice", 7, none, "d", 9⟩]⟩) :=
  ⟨by decide, by decide,
   (C10_first_row_check_all_rows_effect
     ⟨[⟨none, "Rice", 5, none, "d", 2⟩, ⟨none, "Rice", 7, none, "d", 9⟩],
      [⟨none, "Rice", 5, none, "d", 2⟩, ⟨none, "Rice", 7, none, "d", 9⟩]⟩
     "Rice" 4 2 "note" "d2" ⟨none, "Rice", 5, none, "d", 2⟩
     (by decide) (by decide)).1.1⟩

/-- C3 counterexample: a delete is a successful mutation, yet after it the
record has no version at all — the store holds no row of that name — so
"version after the write equals version before plus 1" fails for delete. -/
theorem C3_counterexample_delete_leaves_no_version :
    (delete_item_from_gsheet
        ⟨[⟨none, "Rice", 5, none, "d", 2⟩], [⟨none, "Rice", 5, none, "d", 2⟩]⟩
        "Rice" 2 true).1 = .success
    ∧ ((delete_item_from_gsheet
          ⟨[⟨none, "Rice", 5, none, "d", 2⟩],
           [⟨none, "Rice", 5, none, "d", 2⟩]⟩
          "Rice" 2 true).2.store.filter (fun r => r.name == "Rice")) = [] := by
  constructor <;> rfl

/-- C3 amended: for successful quantity- and notes-updates the stored
version of every row of that name becomes the authoritative pre-write
version plus exactly 1 (and such a row exists when the mirror held one);
a successful delete instead removes every row of the name, leaving no
version behind. -/
theorem C3_version_bump_on_updates (s : AppState) (item_name : String)
    (new_quantity expected_version : Int) (new_notes today : String)
    (row : Record)
    (hrow : (get_item_from_gsheets s.store item_name).head? = some row)
    (hv : row.version = expected_version)
    (hmem : ∃ r ∈ s.mirror, r.name = item_name) :
    ((update_gsheet_quantity_and_date s item_name new_quantity
        expected_version today true).1 = .success
      ∧ (∀ r ∈ (update_gsheet_quantity_and_date s item_name new_quantity
            expected_version today true).2.store,
          r.name = item_name → r.version = expected_version + 1)
      ∧ (∃ r ∈ (update_gsheet_quantity_and_date s item_name new_quantity
            expected_version today true).2.store,
          r.name = item_name ∧ r.version = expected_version + 1))
    ∧ ((update_notes_in_gsheet s item_name new_notes expected_version
          true).1 = .success
      ∧ (∀ r ∈ (update_notes_in_gsheet s item_name new_notes
            expected_version true).2.store,
          r.name = item_name → r.version = expected_version + 1)
      ∧ (∃ r ∈ (update_notes_in_gsheet s item_name new_notes
            expected_version true).2.store,
          r.name = item_name ∧ r.version = expected_version + 1))
    ∧ ((delete_item_from_gsheet s item_name expected_version true).1
          = .success
      ∧ (delete_item_from_gsheet s item_name expected_version
          true).2.store.filter (fun r => r.name == item_name) = []) := by
  have hq := quantity_update_success s item_name new_quantity
    expected_version today row hrow hv
  have hn := notes_update_success s item_name new_notes expected_version
    row hrow hv
  have hd := delete_success s item_name expected_version row hrow hv
  have hqall : ∀ r ∈ (update_gsheet_quantity_and_date s item_name
      new_quantity expected_version today true).2.store,
      r.name = item_name →
        r.quantity = new_quantity ∧ r.version = expected_version + 1 := by
    intro r hr hname
    rw [hq] at hr
    exact quantity_logic_mem item_name new_quantity today
      (expected_version + 1) s.mirror r hr hname
  have hnall : ∀ r ∈ (update_notes_in_gsheet s item_name new_notes
      expected_version true).2.store,
      r.name = item_name →
        r.notes = some new_notes ∧ r.version = expected_version + 1 := by
    intro r hr hname
    rw [hn] at hr
    exact notes_logic_mem item_name new_notes (expected_version + 1)
      s.mirror r hr hname
  obtain ⟨a, ha, haname⟩ := hmem
  refine ⟨⟨by rw [hq], fun r hr hname => (hqall r hr hname).2, ?_⟩,
          ⟨by rw [hn], fun r hr hname => (hnall r hr hname).2, ?_⟩,
          ⟨by rw [hd], ?_⟩⟩
  · refine ⟨(fun r => if r.name == item_name then
        { r with quantity := new_quantity, date := today,
                 version := expected_version + 1 } else r) a, ?_, ?_⟩
    · rw [hq]
      exact List.mem_map_of_mem _ ha
    · simp [haname]
  · refine ⟨(fun r => if r.name == item_name then
        { r with notes := some new_notes,
                 version := expected_version + 1 } else r) a, ?_, ?_⟩
    · rw [hn]
      exact List.mem_map_of_mem _ ha
    · simp [haname]
  · rw [hd]
    exact filter_name_after_delete item_name s.mirror

/-- Witness for C3's amended theorem: `Rice` at version 2 in both store and
mirror; updates bump it to 3, the delete removes it. -/
theorem C3_version_bump_on_updates_witness :
    ((get_item_from_gsheets
        ([⟨none, "Rice", 5, none, "d", 2⟩] : List Record) "Rice").head?
      = some ⟨none, "Rice", 5, none, "d", 2⟩)
    ∧ (Record.version ⟨none, "Rice", 5, none, "d", 2⟩ = 2)
    ∧ (∃ r ∈ ([⟨none, "Rice", 5, none, "d", 2⟩] : List Record),
        r.name = "Rice")
    ∧ (∃ r ∈ (update_gsheet_quantity_and_date
          ⟨[⟨none, "Rice", 5, none, "d", 2⟩],
           [⟨none, "Rice", 5, none, "d", 2⟩]⟩ "Rice" 4 2 "d2"
          true).2.store,
        r.name = "Rice" ∧ r.version = 2 + 1) :=
  ⟨by decide, by decide, ⟨⟨none, "Rice", 5, none, "d", 2⟩, by decide⟩,
   (C3_version_bump_on_updates
     ⟨[⟨none, "Rice", 5, none, "d", 2⟩], [⟨none, "Rice", 5, none, "d", 2⟩]⟩
     "Rice" 4 2 "note" "d2" ⟨none, "Rice", 5, none, "d", 2⟩
     (by decide) (by decide)
     ⟨⟨none, "Rice", 5, none, "d", 2⟩, by decide⟩).1.2.2⟩

/-- C4 counterexample: the store holds only `Rice`; the session mirror also
holds a `Beans` row.  The quantity update verifies against the store (no
`Beans` there), succeeds, and the collection it writes back contains
`Beans` — so what is written is not the freshly re-read authoritative
collection with only the named record modified. -/
theorem C4_counterexample_written_from_mirror :
    (update_gsheet_quantity_and_date
        ⟨[⟨none, "Rice", 5, none, "d", 1⟩],
         [⟨none, "Rice", 9, none, "d", 1⟩, ⟨none, "Beans", 2, none, "d", 1⟩]⟩
        "Rice" 4 1 "d2" true).1 = .success
    ∧ (([⟨none, "Rice", 5, none, "d", 1⟩] : List Record).filter
        (fun r => r.name == "Beans")) = []
    ∧ ((update_gsheet_quantity_and_date
          ⟨[⟨none, "Rice", 5, none, "d", 1⟩],
           [⟨none, "Rice", 9, none, "d", 1⟩,
            ⟨none, "Beans", 2, none, "d", 1⟩]⟩
          "Rice" 4 1 "d2" true).2.store.filter
        (fun r => r.name == "Beans"))
      = [⟨none, "Beans", 2, none, "d", 1⟩] := by
  refine ⟨rfl, rfl, rfl⟩

/-- C4 amended: for every existing-record mutation — quantity update,
notes update and delete — the verification read bypasses the session
mirror (the operation's outcome is the same whatever the mirror holds),
but on a match the collection handed to the write is the session mirror
with every row of the named record rewritten (or dropped, for delete), not
the freshly re-read authoritative collection. -/
theorem C4_check_on_store_write_from_mirror (s : AppState)
    (item_name : String) (new_quantity expected_version : Int)
    (new_notes today : String) (row : Record)
    (hrow : (get_item_from_gsheets s.store item_name).head? = some row)
    (hv : row.version = expected_version) :
    (∀ (mirror2 : List Record) (writeOk : Bool),
        (update_gsheet_quantity_and_date ⟨s.store, mirror2⟩ item_name
            new_quantity expected_version today writeOk).1
          = (update_gsheet_quantity_and_date s item_name new_quantity
              expected_version today writeOk).1)
    ∧ (∀ (mirror2 : List Record) (writeOk : Bool),
        (update_notes_in_gsheet ⟨s.store, mirror2⟩ item_name new_notes
            expected_version writeOk).1
          = (update_notes_in_gsheet s item_name new_notes
              expected_version writeOk).1)
    ∧ (∀ (mirror2 : List Record) (writeOk : Bool),
        (delete_item_from_gsheet ⟨s.store, mirror2⟩ item_name
            expected_version writeOk).1
          = (delete_item_from_gsheet s item_name expected_version
              writeOk).1)
    ∧ update_gsheet_quantity_and_date s item_name new_quantity
        expected_version today true
      = (.success,
         ⟨quantity_update_logic item_name new_quantity today
            (expected_version + 1) s.mirror,
          quantity_update_logic item_name new_quantity today
            (expected_version + 1) s.mirror⟩)
    ∧ update_notes_in_gsheet s item_name new_notes expected_version true
      = (.success,
         ⟨notes_update_logic item_name new_notes (expected_version + 1)
            s.mirror,
          notes_update_logic item_name new_notes (expected_version + 1)
            s.mirror⟩)
    ∧ delete_item_from_gsheet s item_name expected_version true
      = (.success,
         ⟨s.mirror.filter (fun r => !(r.name == item_name)),
          s.mirror.filter (fun r => !(r.name == item_name))⟩) := by
  refine ⟨?_, ?_, ?_,
    quantity_update_success s item_name new_quantity expected_version
      today row hrow hv,
    notes_update_success s item_name new_notes expected_version row
      hrow hv,
    delete_success s item_name expected_version row hrow hv⟩
  · intro mirror2 writeOk
    cases writeOk <;>
      simp [update_gsheet_quantity_and_date, perform_optimistic_update,
        hrow, hv]
  · intro mirror2 writeOk
    cases writeOk <;>
      simp [update_notes_in_gsheet, perform_optimistic_update, hrow, hv]
  · intro mirror2 writeOk
    cases writeOk <;>
      simp [delete_item_from_gsheet, perform_optimistic_update,
        delete_logic, hrow, hv]

/-- Witness for C4's amended theorem, at the same store/mirror pair as the
counterexample. -/
theorem C4_check_on_store_write_from_mirror_witness :
    ((get_item_from_gsheets ([⟨none, "Rice", 5, none, "d", 1⟩] : List Record)
        "Rice").head? = some ⟨none, "Rice", 5, none, "d", 1⟩)
    ∧ (Record.version ⟨none, "Rice", 5, none, "d", 1⟩ = 1)
    ∧ update_gsheet_quantity_and_date
        ⟨[⟨none, "Rice", 5, none, "d", 1⟩],
         [⟨none, "Rice", 9, none, "d", 1⟩, ⟨none, "Beans", 2, none, "d", 1⟩]⟩
        "Rice" 4 1 "d2" true
      = (.success,
         ⟨quantity_update_logic "Rice" 4 "d2" (1 + 1)
            [⟨none, "Rice", 9, none, "d", 1⟩,
             ⟨none, "Beans", 2, none, "d", 1⟩],
          quantity_update_logic "Rice" 4 "d2" (1 + 1)
            [⟨none, "Rice", 9, none, "d", 1⟩,
             ⟨none, "Beans", 2, none, "d", 1⟩]⟩) :=
  ⟨by decide, by decide,
   (C4_check_on_store_write_from_mirror
     ⟨[⟨none, "Rice", 5, none, "d", 1⟩],
      [⟨none, "Rice", 9, none, "d", 1⟩, ⟨none, "Beans", 2, none, "d", 1⟩]⟩
     "Rice" 4 1 "note" "d2" ⟨none, "Rice", 5, none, "d", 1⟩
     (by decide) (by decide)).2.2.2.1⟩

/-- C5 counterexample: the version check passes, the mirror is rewritten,
then the backing write fails.  The operation reports the failure and the
store is untouched, but the session mirror now holds the mutated row — a
partial effect the claim rules out. -/
theorem C5_counterexample_mirror_mutated_on_failed_write :
    update_gsheet_quantity_and_date
        ⟨[⟨none, "Rice", 5, none, "d", 1⟩], [⟨none, "Rice", 5, none, "d", 1⟩]⟩
        "Rice" 4 1 "d2" false
      = (.storeError,
         ⟨[⟨none, "Rice", 5, none, "d", 1⟩],
          [⟨none, "Rice", 4, none, "d2", 2⟩]⟩)
    ∧ ([⟨none, "Rice", 4, none, "d2", 2⟩] : List Record)
        ≠ [⟨none, "Rice", 5, none, "d", 1⟩] := by
  exact ⟨rfl, by decide⟩

/-- C5 amended: when the backing write fails, each of the four operations
reports the failure and the authoritative store is unchanged, but the
session mirror has already been mutated — the mirror mutation precedes the
write — so the mirror diverges from the store. -/
theorem C5_failed_write_leaves_mutated_mirror (s : AppState)
    (item_name : String) (new_quantity expected_version : Int)
    (new_notes today : String) (image : Option String) (name2 : String)
    (quantity2 : Int) (notes2 : Option String) (row : Record)
    (hrow : (get_item_from_gsheets s.store item_name).head? = some row)
    (hv : row.version = expected_version) :
    update_gsheet_quantity_and_date s item_name new_quantity
        expected_version today false
      = (.storeError,
         ⟨s.store,
          quantity_update_logic item_name new_quantity today
            (expected_version + 1) s.mirror⟩)
    ∧ update_notes_in_gsheet s item_name new_notes expected_version false
      = (.storeError,
         ⟨s.store,
          notes_update_logic item_name new_notes (expected_version + 1)
            s.mirror⟩)
    ∧ delete_item_from_gsheet s item_name expected_version false
      = (.storeError,
         ⟨s.store, s.mirror.filter (fun r => !(r.name == item_name))⟩)
    ∧ add_new_item_to_gsheet s image name2 quantity2 notes2 today false
      = (.storeError,
         ⟨s.store,
          s.mirror ++ [⟨image, name2, quantity2, notes2, today, 1⟩]⟩) := by
  refine ⟨?_, ?_, ?_, rfl⟩ <;>
    simp [update_gsheet_quantity_and_date, update_notes_in_gsheet,
      delete_item_from_gsheet, perform_optimistic_update, delete_logic,
      hrow, hv]

/-- Witness for C5's amended theorem: `Rice` at version 1, write failing. -/
theorem C5_failed_write_leaves_mutated_mirror_witness :
    ((get_item_from_gsheets ([⟨none, "Rice", 5, none, "d", 1⟩] : List Record)
        "Rice").head? = some ⟨none, "Rice", 5, none, "d", 1⟩)
    ∧ (Record.version ⟨none, "Rice", 5, none, "d", 1⟩ = 1)
    ∧ update_gsheet_quantity_and_date
        ⟨[⟨none, "Rice", 5, none, "d", 1⟩], [⟨none, "Rice", 5, none, "d", 1⟩]⟩
        "Rice" 4 1 "d2" false
      = (.storeError,
         ⟨[⟨none, "Rice", 5, none, "d", 1⟩],
          quantity_update_logic "Rice" 4 "d2" (1 + 1)
            [⟨none, "Rice", 5, none, "d", 1⟩]⟩) :=
  ⟨by decide, by decide,
   (C5_failed_write_leaves_mutated_mirror
     ⟨[⟨none, "Rice", 5, none, "d", 1⟩], [⟨none, "Rice", 5, none, "d", 1⟩]⟩
     "Rice" 4 1 "note" "d2" none "Beans" 2 none
     ⟨none, "Rice", 5, none, "d", 1⟩ (by decide) (by decide)).1⟩

/-- C2 counterexample: the store holds `Rice` at version 5, the session
mirror holds a stale `Rice` at version 1.  A successful quantity update of
`Beans` writes the whole mirror back, so afterwards the store holds `Rice`
at version 1: the stored version of `Rice` decreased and will repeat, so it
is not monotonically increasing over sequences of operations. -/
theorem C2_counterexample_stale_mirror_version_decreases :
    (([⟨none, "Rice", 5, none, "d", 5⟩, ⟨none, "Beans", 2, none, "d", 1⟩]
        : List Record).filter (fun r => r.name == "Rice")).head?
      = some ⟨none, "Rice", 5, none, "d", 5⟩
    ∧ (update_gsheet_quantity_and_date
        ⟨[⟨none, "Rice", 5, none, "d", 5⟩, ⟨none, "Beans", 2, none, "d", 1⟩],
         [⟨none, "Rice", 5, none, "d", 1⟩, ⟨none, "Beans", 2, none, "d", 1⟩]⟩
        "Beans" 3 1 "d2" true).1 = .success
    ∧ ((update_gsheet_quantity_and_date
          ⟨[⟨none, "Rice", 5, none, "d", 5⟩,
            ⟨none, "Beans", 2, none, "d", 1⟩],
           [⟨none, "Rice", 5, none, "d", 1⟩,
            ⟨none, "Beans", 2, none, "d", 1⟩]⟩
          "Beans" 3 1 "d2" true).2.store.filter
        (fun r => r.name == "Rice")).head?
      = some ⟨none, "Rice", 5, none, "d", 1⟩
    ∧ (1 : Int) < 5 := by
  refine ⟨rfl, rfl, rfl, by decide⟩

/-- C2 amended: provided the acting session's mirror equals the
authoritative store, once any of the three existing-record mutations
succeeds against `expected_version`, every later existing-record mutation
of that record still presenting `expected_version` — from any session,
whatever its mirror — fails: with a version conflict after a successful
quantity or notes update, and with record-not-found after a successful
delete (the record is gone), never with a second success. -/
theorem C2_at_most_one_writer_synchronized (s : AppState)
    (item_name : String) (new_quantity expected_version : Int)
    (new_notes today : String) (row : Record)
    (hsync : s.mirror = s.store)
    (hrow : (get_item_from_gsheets s.store item_name).head? = some row)
    (hv : row.version = expected_version) :
    ((update_gsheet_quantity_and_date s item_name new_quantity
        expected_version today true).1 = .success
      ∧ (∀ (mirror2 : List Record) (q2 : Int) (t2 : String) (wk : Bool),
          (update_gsheet_quantity_and_date
              ⟨(update_gsheet_quantity_and_date s item_name new_quantity
                  expected_version today true).2.store, mirror2⟩
              item_name q2 expected_version t2 wk).1 = .versionConflict)
      ∧ (∀ (mirror2 : List Record) (notes2 : String) (wk : Bool),
          (update_notes_in_gsheet
              ⟨(update_gsheet_quantity_and_date s item_name new_quantity
                  expected_version today true).2.store, mirror2⟩
              item_name notes2 expected_version wk).1 = .versionConflict)
      ∧ (∀ (mirror2 : List Record) (wk : Bool),
          (delete_item_from_gsheet
              ⟨(update_gsheet_quantity_and_date s item_name new_quantity
                  expected_version today true).2.store, mirror2⟩
              item_name expected_version wk).1 = .versionConflict))
    ∧ ((update_notes_in_gsheet s item_name new_notes expected_version
          true).1 = .success
      ∧ (∀ (mirror2 : List Record) (q2 : Int) (t2 : String) (wk : Bool),
          (update_gsheet_quantity_and_date
              ⟨(update_notes_in_gsheet s item_name new_notes
                  expected_version true).2.store, mirror2⟩
              item_name q2 expected_version t2 wk).1 = .versionConflict)
      ∧ (∀ (mirror2 : List Record) (notes2 : String) (wk : Bool),
          (update_notes_in_gsheet
              ⟨(update_notes_in_gsheet s item_name new_notes
                  expected_version true).2.store, mirror2⟩
              item_name notes2 expected_version wk).1 = .versionConflict)
      ∧ (∀ (mirror2 : List Record) (wk : Bool),
          (delete_item_from_gsheet
              ⟨(update_notes_in_gsheet s item_name new_notes
                  expected_version true).2.store, mirror2⟩
              item_name expected_version wk).1 = .versionConflict))
    ∧ ((delete_item_from_gsheet s item_name expected_version true).1
          = .success
      ∧ (∀ (mirror2 : List Record) (q2 : Int) (t2 : String) (wk : Bool),
          (update_gsheet_quantity_and_date
              ⟨(delete_item_from_gsheet s item_name expected_version
                  true).2.store, mirror2⟩
              item_name q2 expected_version t2 wk).1 = .recordNotFound)
      ∧ (∀ (mirror2 : List Record) (notes2 : String) (wk : Bool),
          (update_notes_in_gsheet
              ⟨(delete_item_from_gsheet s item_name expected_version
                  true).2.store, mirror2⟩
              item_name notes2 expected_version wk).1 = .recordNotFound)
      ∧ (∀ (mirror2 : List Record) (wk : Bool),
          (delete_item_from_gsheet
              ⟨(delete_item_from_gsheet s item_name expected_version
                  true).2.store, mirror2⟩
              item_name expected_version wk).1 = .recordNotFound)) := by
  have hq := quantity_update_success s item_name new_quantity
    expected_version today row hrow hv
  have hn := notes_update_success s item_name new_notes expected_version
    row hrow hv
  have hd := delete_success s item_name expected_version row hrow hv
  obtain ⟨⟨t, ht⟩, _⟩ := filter_head_shape
    (fun r => r.name == item_name) s.store row hrow
  have hfindq : List.find? (fun r => r.name == item_name)
      (quantity_update_logic item_name new_quantity today
        (expected_version + 1) s.mirror)
      = some { row with quantity := new_quantity, date := today,
                        version := expected_version + 1 } := by
    rw [← List.filter_head?, quantity_update_filter, hsync, ht]
    rfl
  have hfindn : List.find? (fun r => r.name == item_name)
      (notes_update_logic item_name new_notes (expected_version + 1)
        s.mirror)
      = some { row with notes := some new_notes,
                        version := expected_version + 1 } := by
    rw [← List.filter_head?, notes_update_filter, hsync, ht]
    rfl
  have hne : expected_version + 1 ≠ expected_version := by omega
  have hfindd : List.find? (fun r => r.name == item_name)
      (s.mirror.filter (fun r => !(r.name == item_name))) = none := by
    rw [← List.filter_head?, filter_name_after_delete]
    rfl
  refine ⟨⟨by rw [hq], ?_, ?_, ?_⟩, ⟨by rw [hn], ?_, ?_, ?_⟩,
    ⟨by rw [hd], ?_, ?_, ?_⟩⟩
  · intro mirror2 q2 t2 wk
    rw [hq]
    simp [update_gsheet_quantity_and_date, perform_optimistic_update,
      get_item_from_gsheets, hfindq, hne]
  · intro mirror2 notes2 wk
    rw [hq]
    simp [update_notes_in_gsheet, perform_optimistic_update,
      get_item_from_gsheets, hfindq, hne]
  · intro mirror2 wk
    rw [hq]
    simp [delete_item_from_gsheet, perform_optimistic_update,
      get_item_from_gsheets, hfindq, hne]
  · intro mirror2 q2 t2 wk
    rw [hn]
    simp [update_gsheet_quantity_and_date, perform_optimistic_update,
      get_item_from_gsheets, hfindn, hne]
  · intro mirror2 notes2 wk
    rw [hn]
    simp [update_notes_in_gsheet, perform_optimistic_update,
      get_item_from_gsheets, hfindn, hne]
  · intro mirror2 wk
    rw [hn]
    simp [delete_item_from_gsheet, perform_optimistic_update,
      get_item_from_gsheets, hfindn, hne]
  · intro mirror2 q2 t2 wk
    rw [hd]
    simp [update_gsheet_quantity_and_date, perform_optimistic_update,
      get_item_from_gsheets, hfindd]
  · intro mirror2 notes2 wk
    rw [hd]
    simp [update_notes_in_gsheet, perform_optimistic_update,
      get_item_from_gsheets, hfindd]
  · intro mirror2 wk
    rw [hd]
    simp [delete_item_from_gsheet, perform_optimistic_update,
      get_item_from_gsheets, hfindd]

/-- Witness for C2's amended theorem: `Rice` at version 2 in a
synchronized session; after a successful notes update, a second caller
with an empty mirror and the stale version 2 is rejected with a version
conflict. -/
theorem C2_at_most_one_writer_synchronized_witness :
    (([⟨none, "Rice", 5, none, "d", 2⟩] : List Record)
        = [⟨none, "Rice", 5, none, "d", 2⟩])
    ∧ ((get_item_from_gsheets ([⟨none, "Rice", 5, none, "d", 2⟩]
          : List Record) "Rice").head?
        = some ⟨none, "Rice", 5, none, "d", 2⟩)
    ∧ (Record.version ⟨none, "Rice", 5, none, "d", 2⟩ = 2)
    ∧ (update_notes_in_gsheet
        ⟨(update_notes_in_gsheet
            ⟨[⟨none, "Rice", 5, none, "d", 2⟩],
             [⟨none, "Rice", 5, none, "d", 2⟩]⟩
            "Rice" "note" 2 true).2.store, []⟩
        "Rice" "n2" 2 true).1 = .versionConflict :=
  ⟨rfl, by decide, by decide,
   (C2_at_most_one_writer_synchronized
     ⟨[⟨none, "Rice", 5, none, "d", 2⟩], [⟨none, "Rice", 5, none, "d", 2⟩]⟩
     "Rice" 1 2 "note" "d2" ⟨none, "Rice", 5, none, "d", 2⟩
     rfl (by decide) (by decide)).2.1.2.2.1 [] "n2" true⟩

/-- On a column of well-formed cells (no non-numeric text), the version
conversion succeeds: blanks come out as 1, numeric cells keep their
value. -/
theorem astype_version_column_ok (l : List RawRow)
    (h : ∀ r ∈ l, version_cell_ok r.versionCell = true) :
    astype_version_column l
      = some (l.map (fun r =>
          with_version r (normalized_version r.versionCell))) := by
  induction l with
  | nil => rfl
  | cons a l ih =>
    have ha := h a (List.mem_cons_self a l)
    have hl := ih (fun r hr => h r (List.mem_cons_of_mem a hr))
    cases hc : a.versionCell with
    | blank =>
      simp [astype_version_column, hc, fillna_one, astype_int, hl,
        normalized_version]
    | num n =>
      simp [astype_version_column, hc, fillna_one, astype_int, hl,
        normalized_version]
    | text str =>
      rw [hc] at ha
      simp [version_cell_ok] at ha

/-- C7 counterexample: one kept row whose version cell is the non-numeric
string "two".  `fillna(1).astype(int)` raises on it, the load's `except`
branch fires, and the whole load returns `None` — the cell is not
normalised to 1. -/
theorem C7_counterexample_nonnumeric_version_fails_load :
    get_data_from_gsheets
        ⟨true, [⟨.blank, .text "Rice", .num 5, .blank, .blank, .text "two"⟩]⟩
      = none := by
  rfl

/-- C7 amended: on load, a missing `Version` column or a blank version cell
is normalised to version 1 and numeric versions are preserved, without
failing; but when some version cell is non-numeric text the whole load
fails (returns `None` after the error report) instead of normalising it. -/
theorem C7_normalization_of_wellformed_versions (t : RawTable)
    (h : ∀ r ∈ t.rows, version_cell_ok r.versionCell = true) :
    get_data_from_gsheets t
      = some ((t.rows.filter keep_row).map (fun r =>
          with_version r
            (if t.hasVersionColumn then normalized_version r.versionCell
             else 1))) := by
  cases hcol : t.hasVersionColumn with
  | false => simp [get_data_from_gsheets, hcol]
  | true =>
    simp only [get_data_from_gsheets, hcol, if_true]
    rw [astype_version_column_ok]
    exact fun r hr => h r (List.mem_of_mem_filter hr)

/-- Witness for C7's amended theorem: a blank version cell, a numeric one,
and an all-blank row that `dropna` removes. -/
theorem C7_normalization_of_wellformed_versions_witness :
    version_cell_ok Cell.blank = true
    ∧ version_cell_ok (Cell.num 7) = true
    ∧ get_data_from_gsheets
        ⟨true,
         [⟨.num 1, .text "Rice", .num 5, .blank, .text "d", .blank⟩,
          ⟨.blank, .text "Beans", .num 2, .blank, .text "d", .num 7⟩,
          ⟨.blank, .blank, .blank, .blank, .num 9, .num 9⟩]⟩
      = some ((([⟨.num 1, .text "Rice", .num 5, .blank, .text "d", .blank⟩,
                 ⟨.blank, .text "Beans", .num 2, .blank, .text "d", .num 7⟩,
                 ⟨.blank, .blank, .blank, .blank, .num 9, .num 9⟩]
                  : List RawRow).filter keep_row).map (fun r =>
          with_version r
            (if (true : Bool) then normalized_version r.versionCell
             else 1))) :=
  ⟨rfl, rfl,
   C7_normalization_of_wellformed_versions
     ⟨true,
      [⟨.num 1, .text "Rice", .num 5, .blank, .text "d", .blank⟩,
       ⟨.blank, .text "Beans", .num 2, .blank, .text "d", .num 7⟩,
       ⟨.blank, .blank, .blank, .blank, .num 9, .num 9⟩]⟩
     (by decide)⟩

end Haminku
